import Mathlib

/-!
Shallow embedding of the InnovateAi services (`services/tools_service.py`,
`services/speech_service.py`, `services/openai_service.py`,
`services/browser_service.py`) and proofs of the specification claims.

External collaborators (the OpenAI client, the filesystem, Playwright, the
TTS providers) are modelled as oracles: explicit state machines or result
functions quantified over in the theorems.  Python truthiness of strings
(`""` is falsy) and of `None` is modelled explicitly where the source relies
on it.
-/

/-- Python truthiness for an optional string: `None` and `""` are falsy.
Used wherever the source writes `if not x:` on a value that is either a
string or `None`. -/
def pyFalsyOpt : Option String → Bool
  | none => true
  | some s => s = ""

/-- Python `pat in s` substring containment (for non-empty `pat`):
`s.splitOn pat` has more than one piece exactly when `pat` occurs in `s`. -/
def strContains (s pat : String) : Bool :=
  (s.splitOn pat).length > 1

namespace Tools

/-! ### services/tools_service.py -/

/-- State of the persisted `vector_store_id.json` file as seen by
`get_stored_vector_store_id`: the file may be absent, opening/reading it may
raise, `json.load` may raise, or it holds a parsed JSON object (modelled as
an association list of string fields). -/
inductive VSFile where
  | missing
  | unreadable
  | invalidJson
  | stored (fields : List (String × String))
deriving Repr, DecidableEq

/-- `get_stored_vector_store_id` (tools_service.py lines 12-25): returns the
`vector_store_id` field of the JSON file; every failure (missing file, read
error, invalid JSON) is caught and turned into `None`. -/
def get_stored_vector_store_id : VSFile → Option String
  | .missing => none
  | .unreadable => none
  | .invalidJson => none
  | .stored fields => (fields.find? (fun p => p.1 = "vector_store_id")).map Prod.snd

/-- Filesystem state for the vector-store id file: current contents plus
whether a write (`save_vector_store_id`) would succeed. -/
structure FS where
  file : VSFile
  writeOk : Bool
deriving Repr, DecidableEq

/-- `save_vector_store_id` (lines 27-39): writes `{'vector_store_id': id}`;
returns `False` (and leaves the file as is) when the write raises. -/
def save_vector_store_id (fs : FS) (vector_store_id : String) : Bool × FS :=
  if fs.writeOk then
    (true, { fs with file := .stored [("vector_store_id", vector_store_id)] })
  else
    (false, fs)

/-- A batch object returned by `client.beta.vector_stores.file_batches.list`;
`file_ids` is optional because the source reads it with
`getattr(batch, 'file_ids', [])`. -/
structure Batch where
  id : String
  status : String
  file_ids : Option (List String)
deriving Repr, DecidableEq

/-- A file object returned by `client.files.retrieve`. -/
structure FileInfo where
  filename : String
  bytes : Nat
  created_at : Nat
deriving Repr, DecidableEq

/-- The OpenAI client operations used by the tools service, as a state
machine over an abstract client state `χ`; `Except.error` models a raised
exception. -/
structure VSClient (χ : Type) where
  files_create : χ → String → Except String (String × χ)
  vector_stores_create : χ → Except String (String × χ)
  file_batches_create : χ → String → List String → Except String (String × χ)
  file_batches_list : χ → String → Except String (List Batch × χ)
  files_retrieve : χ → String → Except String (FileInfo × χ)

/-- The world threaded through `upload_file_to_vector_store`: the client
state, the persisted-id file, and a ghost counter of how many times
`client.beta.vector_stores.create` has been invoked. -/
structure TWorld (χ : Type) where
  client : χ
  fs : FS
  vsCreateCalls : Nat

/-- Second half of `upload_file_to_vector_store` (lines 72-81): add the
uploaded file to the vector store and return `(file_id, vector_store_id)`. -/
def addFileToStore (C : VSClient χ) (w : TWorld χ) (vector_store_id file_id : String) :
    Except String (String × String) × TWorld χ :=
  match C.file_batches_create w.client vector_store_id [file_id] with
  | .error e => (.error e, w)
  | .ok (_batch_id, c') => (.ok (file_id, vector_store_id), { w with client := c' })

/-- `upload_file_to_vector_store` (lines 41-84): upload the file, then reuse
the persisted vector store id if one exists (Python truthiness: `None` and
`""` both trigger creation), otherwise create a new store and persist its id
(the boolean result of `save_vector_store_id` is ignored by the source);
finally create a file batch.  Exceptions are re-raised (`Except.error`). -/
def upload_file_to_vector_store (C : VSClient χ) (w : TWorld χ) (file_path : String) :
    Except String (String × String) × TWorld χ :=
  match C.files_create w.client file_path with
  | .error e => (.error e, w)
  | .ok (file_id, c1) =>
    let w1 : TWorld χ := { w with client := c1 }
    let vector_store_id := get_stored_vector_store_id w1.fs.file
    if pyFalsyOpt vector_store_id then
      match C.vector_stores_create w1.client with
      | .error e => (.error e, { w1 with vsCreateCalls := w1.vsCreateCalls + 1 })
      | .ok (new_id, c2) =>
        let (_saved, fs2) := save_vector_store_id w1.fs new_id
        addFileToStore C { client := c2, fs := fs2, vsCreateCalls := w1.vsCreateCalls + 1 } new_id file_id
    else
      addFileToStore C w1 (vector_store_id.getD "") file_id

/-- An entry of the list built by `get_available_files`. -/
structure FileRecord where
  file_id : String
  filename : String
  size_bytes : Nat
  created_at : Nat
  batch_id : String
deriving Repr, DecidableEq

/-- Inner loop of `get_available_files` (lines 140-153): retrieve each file
of one batch, skipping files whose retrieval raises. -/
def collectBatchFiles (C : VSClient χ) (batch_id : String) :
    List String → χ → List FileRecord × χ
  | [], c => ([], c)
  | file_id :: rest, c =>
    match C.files_retrieve c file_id with
    | .error _ => collectBatchFiles C batch_id rest c
    | .ok (info, c') =>
      let (recs, c'') := collectBatchFiles C batch_id rest c'
      (⟨file_id, info.filename, info.bytes, info.created_at, batch_id⟩ :: recs, c'')

/-- Outer loop of `get_available_files` (lines 134-153): only batches whose
`status` equals `"completed"` contribute files. -/
def collectBatches (C : VSClient χ) : List Batch → χ → List FileRecord × χ
  | [], c => ([], c)
  | b :: rest, c =>
    if b.status = "completed" then
      let (recs, c') := collectBatchFiles C b.id (b.file_ids.getD []) c
      let (recs', c'') := collectBatches C rest c'
      (recs ++ recs', c'')
    else
      collectBatches C rest c

/-- `get_available_files` (lines 115-158): resolve the vector store id
(argument, else persisted file), short-circuit to `[]` when none, list the
batches (a raised exception yields `[]` via the outer handler), then collect
files of completed batches. -/
def get_available_files (C : VSClient χ) (c : χ) (fsfile : VSFile)
    (vector_store_id : Option String) : List FileRecord :=
  let vsid := if pyFalsyOpt vector_store_id then get_stored_vector_store_id fsfile
              else vector_store_id
  if pyFalsyOpt vsid then []
  else
    match C.file_batches_list c (vsid.getD "") with
    | .error _ => []
    | .ok (batches, c') => (collectBatches C batches c').1

end Tools

namespace Speech

/-! ### services/speech_service.py -/

/-- Outcomes of the external TTS providers, as an oracle environment.
`gtts_save text lang` is the result of building `gTTS(text=text, lang=lang)`
and saving it to a fresh uuid-named file under `uploads/audio`: `some path`
on success, `none` when the call raises.  `google_cloud_tts` and
`google_tts_enhanced` already return `None` on their own internal failures
in the source, so they are modelled directly by their `Option` result.
`error_file_exists` is `os.path.exists` for the static fallback file and
`gtts_save_static_ok` tells whether synthesizing the fixed error message to
that static path succeeds. -/
structure SpeechEnv where
  gtts_save : String → String → Option String
  google_cloud_tts : String → String → Option String → Option String
  google_api_key : Option String
  google_tts_enhanced : String → String → String → Option String
  error_file_exists : Bool
  gtts_save_static_ok : Bool

/-- Path of the static fallback audio file (`AUDIO_FOLDER/error_message.mp3`). -/
def error_message_path : String := "uploads/audio/error_message.mp3"

/-- `text_to_speech_gtts` (speech_service.py lines 134-172): empty or
whitespace-only text is replaced by a fixed apology, then gTTS is tried; on
failure a second fixed error message is synthesized, and only if that also
fails is the exception propagated (`Except.error`). -/
def text_to_speech_gtts (env : SpeechEnv) (text : String) (lang : String) :
    Except Unit String :=
  let text := if text = "" || text.trim = "" then
    "Lo siento, hubo un problema al generar una respuesta de voz." else text
  match env.gtts_save text lang with
  | some file_path => .ok file_path
  | none =>
    match env.gtts_save "Lo siento, hubo un problema al convertir el texto a voz." lang with
    | some error_file_path => .ok error_file_path
    | none => .error ()

/-- REST-API attempt plus the static-file fallback — the tail of
`text_to_speech` (speech_service.py lines 289-312): the Google REST API is
tried only when an API key is configured; then the static fallback file is
returned, creating it first when absent; when even that creation fails the
result is `None` (line 310). -/
def ttsRestAndStatic (env : SpeechEnv) (language : String) (voice : Option String)
    (text : String) : Option String :=
  let viaRest : Option String :=
    match env.google_api_key with
    | none => none
    | some _ =>
      let voice_to_use := voice.getD "en-US-Neural2-F"
      match env.google_tts_enhanced text language voice_to_use with
      | some p => if p = "" then none else some p
      | none => none
  match viaRest with
  | some p => some p
  | none =>
    if env.error_file_exists then some error_message_path
    else if env.gtts_save_static_ok then some error_message_path
    else none

/-- The provider cascade of `text_to_speech` (lines 268-312), after the
empty-input replacement: gTTS first (a raised exception is caught), then the
Google Cloud client, then `ttsRestAndStatic`; each truthy path is returned
at once. -/
def ttsCascade (env : SpeechEnv) (language : String) (voice : Option String)
    (text : String) : Option String :=
  let afterGtts : Option String :=
    match text_to_speech_gtts env text language with
    | .ok p => if p = "" then none else some p
    | .error _ => none
  match afterGtts with
  | some p => some p
  | none =>
    match env.google_cloud_tts text language voice with
    | some p => if p = "" then ttsRestAndStatic env language voice text else some p
    | none => ttsRestAndStatic env language voice text

/-- `text_to_speech` (lines 254-312): replace empty or whitespace-only input
by a fixed apology message (lines 263-266), then run the provider cascade. -/
def text_to_speech (env : SpeechEnv) (text : String) (language : String)
    (voice : Option String) : Option String :=
  ttsCascade env language voice
    (if text = "" || text.trim = "" then
      "Lo siento, hubo un problema al generar una respuesta." else text)

end Speech

namespace Chat

/-! ### services/openai_service.py -/

/-- One tool call attached to a chat message (`tool_call.function`). -/
structure ToolCallFn where
  name : String
  arguments : String
deriving Repr, DecidableEq

/-- The message of one choice of a chat-completions response.  `content` is
`none` for JSON `null`; `tool_calls` is `none` when absent or `null`. -/
structure ChatMessage where
  content : Option String
  tool_calls : Option (List ToolCallFn)
deriving Repr, DecidableEq

/-- A chat-completions response (the source only ever reads `choices[0]`). -/
structure ChatResponse where
  choices : List ChatMessage
deriving Repr, DecidableEq

/-- Python truthiness check `not response.choices or not
response.choices[0].message.content` used by the processors. -/
def emptyContent (r : ChatResponse) : Bool :=
  match r.choices with
  | [] => true
  | msg :: _ => pyFalsyOpt msg.content

/-- First choice's content, where the source indexes `choices[0]` without a
guard (an empty list raises an IndexError there instead). -/
def headContent (r : ChatResponse) : Option String :=
  match r.choices with
  | [] => none
  | msg :: _ => msg.content

/-- Approximation of `json.dumps({"name": ..., "arguments": ...})` for the
tool-call info string (string escaping is not modelled). -/
def jsonDumpTool (tc : ToolCallFn) : String :=
  "\x7b\"name\": \"" ++ tc.name ++ "\", \"arguments\": \"" ++ tc.arguments ++ "\"\x7d"

/-- Fixed message of `process_query_with_file_search` when no vector store
is configured (openai_service.py line 290). -/
def noFilesMsg : String :=
  "No tengo archivos disponibles para buscar. Por favor, sube algunos archivos primero."

/-- `process_query_with_file_search` (lines 279-341).  `tr` is the
transcription oracle (`transcribe_audio`, raising already-wrapped errors)
and `chat` the chat-completions oracle taking the transcript.  With a falsy
`vector_store_id` (Python: `None` or `""`) the fixed no-files message is
returned before any chat call; otherwise the model is called and
`choices[0].message.content` is returned unchecked (it may be `None`).  Any
exception is re-raised wrapped in the processor's message. -/
def process_query_with_file_search (tr : String → Except String String)
    (chat : String → Except String ChatResponse) (input_data : String)
    (vector_store_id : Option String) (is_text : Bool) :
    Except String (String × Option String) :=
  let body : Except String (String × Option String) :=
    match (if is_text then Except.ok input_data else tr input_data) with
    | .error e => .error e
    | .ok transcript =>
      if pyFalsyOpt vector_store_id then .ok (transcript, some noFilesMsg)
      else
        match chat transcript with
        | .error e => .error e
        | .ok response =>
          match response.choices with
          | [] => .error "list index out of range"
          | msg :: _ => .ok (transcript, msg.content)
  match body with
  | .ok r => .ok r
  | .error e => .error ("Failed to process query with file search: " ++ e)

/-- Oracles of `process_query_with_web_search`: the transcription adapter,
the `gpt-4o-search-preview` call (argument: the user content string) and the
`gpt-4o` function-calling fallback call (argument: the transcript). -/
structure WebSearchEnv where
  transcribe_audio : String → Except String String
  search_model : String → Except String ChatResponse
  fallback_model : String → Except String ChatResponse

/-- Result of `process_query_with_web_search` plus the ghost observation of
whether the fallback strategy was invoked. -/
structure WebSearchResult where
  transcript : String
  response_text : String
  usedFallback : Bool
deriving Repr, DecidableEq

/-- Fixed message of the outer exception handler of
`process_query_with_web_search` (line 230). -/
def webErrMsg : String :=
  "Lo siento, hubo un problema con la búsqueda web. Por favor intenta nuevamente con una consulta diferente."

/-- Fixed message used by both strategies when the response is empty. -/
def webEmptyMsg : String :=
  "Lo siento, no pude encontrar información sobre ese tema. Por favor intenta con otra búsqueda."

/-- `process_query_with_web_search` (lines 113-230): transcribe (text input
passes through), try the search-preview model; on any exception from that
call, fall back to the function-calling strategy.  Both strategies return
`(transcript, response_text)`; the outer handler converts any remaining
exception into a fixed message (with transcript `"Error de procesamiento"`
when transcription itself failed). -/
def process_query_with_web_search (env : WebSearchEnv) (input_data : String)
    (is_text : Bool) : WebSearchResult :=
  match (if is_text then Except.ok input_data else env.transcribe_audio input_data) with
  | .error _ => { transcript := "Error de procesamiento", response_text := webErrMsg,
                  usedFallback := false }
  | .ok transcript =>
    match env.search_model ("Busca información actualizada sobre: " ++ transcript) with
    | .ok response =>
      if emptyContent response then
        { transcript := transcript, response_text := webEmptyMsg, usedFallback := false }
      else
        { transcript := transcript, response_text := (headContent response).getD "",
          usedFallback := false }
    | .error _ =>
      match env.fallback_model transcript with
      | .error _ =>
        { transcript := transcript, response_text := webErrMsg, usedFallback := true }
      | .ok response =>
        match response.choices with
        | [] =>
          { transcript := transcript, response_text := webErrMsg, usedFallback := true }
        | msg :: _ =>
          let tool_call_info :=
            match msg.tool_calls with
            | some (tc :: _) => "\n\nIntento de búsqueda: " ++ jsonDumpTool tc
            | _ => ""
          if pyFalsyOpt msg.content then
            { transcript := transcript, response_text := webEmptyMsg ++ tool_call_info,
              usedFallback := true }
          else
            { transcript := transcript, response_text := msg.content.getD "",
              usedFallback := true }

end Chat

namespace Browser

/-! ### services/browser_service.py -/

/-- A browser action produced by the model: Python passes it around as a
dict, so every field is optional; `type` is read with `action.get("type")`
(no default) by `VirtualBrowser` and with `action.get("type", "")` by
`MockBrowser`. -/
structure Action where
  type : Option String := none
  x : Option Int := none
  y : Option Int := none
  text : Option String := none
  key : Option String := none
  url : Option String := none
  delta_x : Option Int := none
  delta_y : Option Int := none
  duration : Option Int := none
deriving Repr, DecidableEq

/-- Stand-in for Python's `str(action)` in the error summary line (the exact
dict repr carries no weight in the claims). -/
def Action.describe (a : Action) : String :=
  "tipo=" ++ a.type.getD "None"

/-- State of `MockBrowser` as far as `execute_action` touches it. -/
structure MockState where
  width : Int := 1024
  height : Int := 768
  is_running : Bool := true
  current_url : String := "https://www.google.com"
  mock_actions : List Action := []
  last_click : Option (Int × Int) := none
deriving Repr, DecidableEq

/-- The five menu items drawn on the generic mock page. -/
def mockMenuItems : List String := ["Home", "About", "Products", "Services", "Contact"]

/-- `url.split('//')[1].split('/')[0]` guarded by `'//' in url`
(browser_service.py line 212). -/
def domainOf (url : String) : String :=
  if strContains url "//" then (((url.splitOn "//").getD 1 "").splitOn "/").getD 0 ""
  else "example.com"

/-- `MockBrowser.execute_action` (lines 154-249): record the action, update
the fictitious current URL according to the heuristics of the simulation,
remember the last click position, and return `True` (the body raises no
exception for well-typed action dicts, so the `except` branch returning
`False` is unreachable in this model). -/
def MockBrowser.execute_action (st0 : MockState) (action : Action) : Bool × MockState :=
  let st := { st0 with mock_actions := st0.mock_actions ++ [action] }
  let action_type := action.type.getD ""
  let lastTwo := st.mock_actions.drop (st.mock_actions.length - 2)
  let prev_actions := lastTwo.filter (fun a => a.type = some "type")
  let st :=
    if action_type = "navigate" then
      { st with current_url := action.url.getD "https://www.google.com" }
    else if action_type = "click" then
      let x := action.x.getD 0
      let y := action.y.getD 0
      if y < 50 then st
      else if strContains st.current_url "google.com" then
        if 150 ≤ y ∧ y ≤ 260 ∧ st.width / 2 - 200 ≤ x ∧ x ≤ st.width / 2 + 200 then st
        else if 290 ≤ y ∧ y ≤ 320 then
          if st.width / 2 - 100 ≤ x ∧ x ≤ st.width / 2 - 20 then
            if st.mock_actions.length ≥ 2 then
              match prev_actions.head? with
              | some pa =>
                let search_term := pa.text.getD ""
                { st with current_url :=
                    "https://www.google.com/search?q=" ++ search_term.replace " " "+" }
              | none => st
            else st
          else st
        else st
      else if strContains st.current_url "example.com" then st
      else
        if 180 ≤ y ∧ y ≤ 400 ∧ 100 ≤ x ∧ x ≤ 300 then
          let menu_index := (y - 200).fdiv 40
          if 0 ≤ menu_index ∧ menu_index < 5 then
            let clicked_item := mockMenuItems.getD menu_index.toNat ""
            { st with current_url :=
                "https://" ++ domainOf st.current_url ++ "/" ++ clicked_item.toLower }
          else st
        else st
    else if action_type = "type" then
      let text := action.text.getD ""
      match st.last_click with
      | some (_, last_click_y) =>
        if last_click_y < 50 then
          if text.startsWith "http" || text.contains '.' then
            { st with current_url :=
                if text.startsWith "http" then text else "https://" ++ text }
          else st
        else st
      | none => st
    else if action_type = "press" then
      let key := action.key.getD ""
      if key.toLower = "enter" then
        if st.mock_actions.length ≥ 2 then
          match prev_actions.head? with
          | some pa =>
            let text := pa.text.getD ""
            if text.startsWith "http" || text.contains '.' then
              { st with current_url :=
                  if text.startsWith "http" then text else "https://" ++ text }
            else if strContains st.current_url "google.com" then
              { st with current_url :=
                  "https://www.google.com/search?q=" ++ text.replace " " "+" }
            else st
          | none => st
        else st
      else st
    else st
  let st :=
    if action_type = "click" then
      { st with last_click := some (action.x.getD 0, action.y.getD 0) }
    else st
  (true, st)

/-- State of `VirtualBrowser` as far as `execute_action` reads it
(`has_page` models `self.page is not None`). -/
structure VBState where
  is_running : Bool
  has_page : Bool
deriving Repr, DecidableEq

/-- Outcomes of the Playwright page primitives: whether each call raises.
`settle_ok` is the trailing `page.wait_for_timeout(500)`. -/
structure PageOps where
  click_ok : Option Int → Option Int → Bool
  type_ok : String → Bool
  press_ok : String → Bool
  wheel_ok : Int → Int → Bool
  wait_ok : Int → Bool
  settle_ok : Bool

/-- `VirtualBrowser.execute_action` (lines 330-374): `False` when the
browser is not running, dispatch on the five known action types (a raised
page call is caught and yields `False`, and the trailing settle wait must
also succeed), and `False` with a warning for any other `type` value —
including a missing one (`action.get("type")` is `None`). -/
def VirtualBrowser.execute_action (ops : PageOps) (st : VBState) (action : Action) : Bool :=
  if st.is_running = false ∨ st.has_page = false then false
  else if action.type = some "click" then
    ops.click_ok action.x action.y && ops.settle_ok
  else if action.type = some "type" then
    ops.type_ok (action.text.getD "") && ops.settle_ok
  else if action.type = some "press" then
    ops.press_ok (action.key.getD "") && ops.settle_ok
  else if action.type = some "scroll" then
    ops.wheel_ok (action.delta_x.getD 0) (action.delta_y.getD 0) && ops.settle_ok
  else if action.type = some "wait" then
    ops.wait_ok (action.duration.getD 1000) && ops.settle_ok
  else false

end Browser

namespace Browser

/-! ### process_autonomous_navigation (browser_service.py lines 399-562) -/

/-- One element of a reasoning item's `summary` list; only parts whose
`type` is `"summary_text"` are used. -/
inductive SummaryPart where
  | summary_text (text : String)
  | otherPart
deriving Repr, DecidableEq

/-- One item of `response.output`.  `reasoning` covers items with a
`summary` attribute, `computer_call` items with an `action` attribute; items
failing those `hasattr` checks behave like `otherItem`. -/
inductive OutputItem where
  | reasoning (summary : List SummaryPart)
  | computer_call (call_id : String) (action : Action)
  | output_text (text : String)
  | otherItem
deriving Repr, DecidableEq

/-- A response of `client.responses.create`. -/
structure ModelResponse where
  output : List OutputItem
deriving Repr, DecidableEq

/-- Arguments of a `client.responses.create` call that vary between calls:
the user text, the optional input image (first call) and the optional
`computer_call_output` (subsequent calls: call id and screenshot). -/
structure CreateInput where
  text : String
  image : Option String
  call_output : Option (String × String)
deriving Repr, DecidableEq

/-- The model client as an oracle state machine over client state `κ`;
`Except.error` models a raised exception. -/
structure NavClient (κ : Type) where
  create : κ → CreateInput → Except String (ModelResponse × κ)

/-- The Browser Driver interface used by the loop (duck-typed in Python),
as a state machine over driver state `σ`.  `take_screenshot` returns the
base64 string or `None`. -/
structure BrowserOps (σ : Type) where
  is_running : σ → Bool
  start : σ → Bool × σ
  take_screenshot : σ → Option String × σ
  execute_action : σ → Action → Bool × σ
  screenshot_path : σ → Option String
  cleanup : σ → σ

/-- Environment of `process_autonomous_navigation`: driver operations, the
`PLAYWRIGHT_AVAILABLE` flag, fresh `VirtualBrowser()` / `MockBrowser()`
instances, and the model client. -/
structure NavEnv (σ κ : Type) where
  ops : BrowserOps σ
  playwright_available : Bool
  new_virtual_browser : σ
  new_mock_browser : σ
  client : NavClient κ

/-- `max_rounds` (line 472). -/
def max_rounds : Nat := 15

/-- The "limit reached" note appended when the round counter is exhausted
(line 550). -/
def limitNote : String := "\n\nNota: Se alcanzó el límite máximo de interacciones."

/-- Outcome of one pass of the `for item in response.output` loop of the
round body (lines 482-537): either no `computer_call` item was found, or the
first one was processed up to the point where the `for` loop is left —
action failed, screenshot falsy, model re-called (new response), or the
re-call raised. -/
inductive RoundStep (σ κ : Type) where
  | no_action (acc : List String)
  | exec_failed (acc : List String) (b : σ) (trace : List Action)
  | shot_failed (acc : List String) (b : σ) (trace : List Action)
  | advanced (acc : List String) (b : σ) (c : κ) (resp : ModelResponse) (trace : List Action)
  | raised (acc : List String) (e : String) (b : σ) (c : κ) (trace : List Action)

/-- The `for item in response.output` scan: reasoning summaries are appended
as "Paso n: ..." lines; the first `computer_call` item is executed (the
executed action is recorded in the ghost `trace`), a failure appends an
error line and leaves the `for` loop, otherwise a new screenshot is taken
(falsy → error line, leave) and the model is re-called with the
`computer_call_output`; only one action is processed per round. -/
def processItems (env : NavEnv σ κ) (instructions : String) (round : Nat) :
    List OutputItem → σ → κ → List String → List Action → RoundStep σ κ
  | [], _b, _c, acc, _tr => .no_action acc
  | OutputItem.reasoning parts :: rest, b, c, acc, tr =>
    let texts := parts.filterMap (fun p =>
      match p with
      | .summary_text t => some ("Paso " ++ toString round ++ ": " ++ t)
      | .otherPart => none)
    processItems env instructions round rest b c (acc ++ texts) tr
  | OutputItem.output_text _ :: rest, b, c, acc, tr =>
    processItems env instructions round rest b c acc tr
  | OutputItem.otherItem :: rest, b, c, acc, tr =>
    processItems env instructions round rest b c acc tr
  | OutputItem.computer_call call_id action :: _rest, b, c, acc, tr =>
    let tr := tr ++ [action]
    let er := env.ops.execute_action b action
    if er.1 = false then
      .exec_failed (acc ++ ["Error al ejecutar acción: " ++ action.describe]) er.2 tr
    else
      let sr := env.ops.take_screenshot er.2
      if pyFalsyOpt sr.1 then
        .shot_failed (acc ++ ["Error al capturar pantalla después de la acción"]) sr.2 tr
      else
        match env.client.create c
            { text := "Continúa con la tarea: " ++ instructions, image := none,
              call_output := some (call_id, sr.1.getD "") } with
        | .error e => .raised acc e sr.2 c tr
        | .ok (resp, c') => .advanced acc sr.2 c' resp tr

/-- Final state of the `while current_round < max_rounds` loop. -/
structure LoopEnd (σ κ : Type) where
  acc : List String
  round : Nat
  b : σ
  c : κ
  trace : List Action
  err : Option String

/-- The `while current_round < max_rounds` loop (lines 476-545), with
`fuel = max_rounds - current_round`.  A round without a `computer_call`
appends all `output_text` results and leaves the loop; after a failed action
or a falsy screenshot only the inner `for` is left, so the loop proceeds to
the next round with the same response (this reproduces the source's `break`,
which does not leave the `while` loop); a successful round continues with
the model's new response; a raised model call propagates. -/
def navLoop (env : NavEnv σ κ) (instructions : String) :
    Nat → Nat → σ → κ → ModelResponse → List String → List Action → LoopEnd σ κ
  | 0, round, b, c, _resp, acc, tr => ⟨acc, round, b, c, tr, none⟩
  | fuel + 1, round, b, c, resp, acc, tr =>
    let round := round + 1
    match processItems env instructions round resp.output b c acc tr with
    | .no_action acc' =>
      let results := resp.output.filterMap (fun item =>
        match item with
        | .output_text t => some ("Resultado: " ++ t)
        | _ => none)
      ⟨acc' ++ results, round, b, c, tr, none⟩
    | .exec_failed acc' b' tr' => navLoop env instructions fuel round b' c resp acc' tr'
    | .shot_failed acc' b' tr' => navLoop env instructions fuel round b' c resp acc' tr'
    | .advanced acc' b' c' resp' tr' => navLoop env instructions fuel round b' c' resp' acc' tr'
    | .raised acc' e b' c' tr' => ⟨acc', round, b', c', tr', some e⟩

/-- Body of the `try` block (lines 430-553): initial screenshot (falsy →
normal return with a fixed message), first model call, the round loop, then
the summary (joined lines, plus the limit note when the counter is
exhausted) and the last screenshot path.  Returns the result or the raised
exception, together with the final driver state and the ghost round counter
and action trace. -/
def runNavigation (env : NavEnv σ κ) (instructions : String) (b : σ) (c : κ) :
    Except String (String × Option String) × σ × Nat × List Action :=
  let s0 := env.ops.take_screenshot b
  if pyFalsyOpt s0.1 then
    (.ok ("No se pudo capturar el estado actual del navegador.", none), s0.2, 0, [])
  else
    match env.client.create c
        { text := instructions, image := some (s0.1.getD ""), call_output := none } with
    | .error e => (.error e, s0.2, 0, [])
    | .ok (resp, c1) =>
      let L := navLoop env instructions max_rounds 0 s0.2 c1 resp [] []
      match L.err with
      | some e => (.error e, L.b, L.round, L.trace)
      | none =>
        let summary := String.intercalate "\n" L.acc
        let summary := if max_rounds ≤ L.round then summary ++ limitNote else summary
        (.ok (summary, env.ops.screenshot_path L.b), L.b, L.round, L.trace)

/-- Driver acquisition (lines 411-428): a running caller-supplied driver is
used as is (`created_browser` stays `False`); otherwise a `VirtualBrowser`
is started when Playwright is available, falling back to a `MockBrowser`,
and a start failure is an early return (before the `try`, hence before the
`finally`) with the corresponding message. -/
def acquireBrowser (env : NavEnv σ κ) (browser? : Option σ) : Except String (Bool × σ) :=
  let mkNew : Except String (Bool × σ) :=
    if env.playwright_available then
      let r1 := env.ops.start env.new_virtual_browser
      if r1.1 then .ok (true, r1.2)
      else
        let r2 := env.ops.start env.new_mock_browser
        if r2.1 then .ok (true, r2.2)
        else .error "No se pudo iniciar el navegador virtual."
    else
      let r2 := env.ops.start env.new_mock_browser
      if r2.1 then .ok (true, r2.2)
      else .error "No se pudo iniciar el navegador virtual simulado."
  match browser? with
  | some b => if env.ops.is_running b then .ok (false, b) else mkNew
  | none => mkNew

/-- Observable result of `process_autonomous_navigation`: the returned
triple plus ghost observations (whether the loop owned the driver, whether
`cleanup` was invoked, the final round counter and the executed actions). -/
structure NavResult (σ : Type) where
  instructions : String
  summary : String
  screenshot_path : Option String
  created_browser : Bool
  cleanup_invoked : Bool
  final_round : Nat
  exec_trace : List Action

/-- `process_autonomous_navigation` (lines 399-562): acquire the driver, run
the `try` body, convert a raised exception into the error-summary return,
and in the `finally` clause clean the driver up exactly when the loop
created it. -/
def process_autonomous_navigation (env : NavEnv σ κ) (instructions : String)
    (browser? : Option σ) (c : κ) : NavResult σ :=
  match acquireBrowser env browser? with
  | .error msg =>
    { instructions := instructions, summary := msg, screenshot_path := none,
      created_browser := false, cleanup_invoked := false, final_round := 0,
      exec_trace := [] }
  | .ok (created, b) =>
    let (res, b', round, trace) := runNavigation env instructions b c
    let cleaned := if created then (env.ops.cleanup b', true) else (b', false)
    match res with
    | .ok (summary, path) =>
      { instructions := instructions, summary := summary, screenshot_path := path,
        created_browser := created, cleanup_invoked := cleaned.2, final_round := round,
        exec_trace := trace }
    | .error e =>
      { instructions := instructions,
        summary := "Error durante la navegación autónoma: " ++ e,
        screenshot_path := none, created_browser := created,
        cleanup_invoked := cleaned.2, final_round := round, exec_trace := trace }

end Browser

namespace Browser

/-- Whether a response output list contains a `computer_call` item (the
condition under which the round body sets `has_action`). -/
def hasComputerCall : List OutputItem → Bool
  | [] => false
  | OutputItem.computer_call _ _ :: _ => true
  | _ :: rest => hasComputerCall rest

/-- Hypotheses of the "always acting" scenario of claim C1: every model
response contains a `computer_call` item, every action execution succeeds,
and every screenshot returns a truthy base64 string. -/
def alwaysActing (env : NavEnv σ κ) : Prop :=
  (∀ (k : κ) (inp : CreateInput), ∃ resp k',
      env.client.create k inp = Except.ok (resp, k') ∧ hasComputerCall resp.output = true)
  ∧ (∀ (s : σ) (a : Action), (env.ops.execute_action s a).1 = true)
  ∧ (∀ s : σ, pyFalsyOpt (env.ops.take_screenshot s).1 = false)

end Browser

/-! ## Claim theorems -/

/-- C9: `get_stored_vector_store_id` maps every failure mode of the
persisted id file — missing file, unreadable file, invalid JSON — to `None`
instead of propagating an error (the function is total, so nothing is ever
raised to the caller). -/
theorem claim_c9_get_stored_never_raises :
    Tools.get_stored_vector_store_id Tools.VSFile.missing = none
  ∧ Tools.get_stored_vector_store_id Tools.VSFile.unreadable = none
  ∧ Tools.get_stored_vector_store_id Tools.VSFile.invalidJson = none :=
  ⟨rfl, rfl, rfl⟩

/-- C4: with no vector store configured (`vector_store_id = None`),
`process_query_with_file_search` is independent of the chat-model oracle
(no external chat call can influence it) and, for text input, returns the
fixed "no files" message paired with the transcript. -/
theorem claim_c4_file_search_short_circuit
    (tr : String → Except String String)
    (chat chat' : String → Except String Chat.ChatResponse)
    (input_data : String) (is_text : Bool) :
    Chat.process_query_with_file_search tr chat input_data none is_text
      = Chat.process_query_with_file_search tr chat' input_data none is_text
  ∧ Chat.process_query_with_file_search tr chat input_data none true
      = Except.ok (input_data, some Chat.noFilesMsg) := by
  constructor
  · unfold Chat.process_query_with_file_search
    cases is_text
    · cases htr : tr input_data <;> simp [pyFalsyOpt, htr]
    · simp [pyFalsyOpt]
  · unfold Chat.process_query_with_file_search
    simp [pyFalsyOpt]

/-- Trivial Playwright page-operation outcomes used as a witness fixture. -/
def trivialPageOps : Browser.PageOps :=
  { click_ok := fun _ _ => true, type_ok := fun _ => true, press_ok := fun _ => true,
    wheel_ok := fun _ _ => true, wait_ok := fun _ => true, settle_ok := true }

/-- C10: the two Browser Driver variants disagree on unknown actions — for
every action whose `type` is not one of the five recognized values,
`VirtualBrowser.execute_action` returns `False`, while
`MockBrowser.execute_action` returns `True` for every action dictionary, so
the drivers are not behaviorally equivalent behind the shared interface. -/
theorem claim_c10_driver_divergence_on_unknown_actions :
    (∀ (ops : Browser.PageOps) (st : Browser.VBState) (a : Browser.Action),
        a.type ∉ [some "click", some "type", some "press", some "scroll", some "wait"] →
        Browser.VirtualBrowser.execute_action ops st a = false)
  ∧ (∀ (st : Browser.MockState) (a : Browser.Action),
        (Browser.MockBrowser.execute_action st a).1 = true)
  ∧ (∃ (ops : Browser.PageOps) (stv : Browser.VBState) (stm : Browser.MockState)
        (a : Browser.Action),
        Browser.VirtualBrowser.execute_action ops stv a
          ≠ (Browser.MockBrowser.execute_action stm a).1) := by
  refine ⟨?_, ?_, ?_⟩
  · intro ops st a h
    simp only [List.mem_cons, List.not_mem_nil, or_false, not_or] at h
    obtain ⟨h1, h2, h3, h4, h5⟩ := h
    unfold Browser.VirtualBrowser.execute_action
    simp [h1, h2, h3, h4, h5]
  · intro st a
    rfl
  · exact ⟨trivialPageOps, ⟨true, true⟩, {}, { type := some "hover" }, by decide⟩

/-- C10 witness: the unknown action type `"hover"` is rejected by the real
driver at a concrete running browser state. -/
theorem claim_c10_witness :
    (Browser.Action.type { type := some "hover" }
        ∉ [some "click", some "type", some "press", some "scroll", some "wait"])
  ∧ Browser.VirtualBrowser.execute_action trivialPageOps ⟨true, true⟩
      { type := some "hover" } = false :=
  ⟨by decide,
   claim_c10_driver_divergence_on_unknown_actions.1 trivialPageOps ⟨true, true⟩
     { type := some "hover" } (by decide)⟩

/-- Speech environment in which every TTS provider fails, the static
fallback file does not exist, and creating it also fails. -/
def allFailSpeechEnv : Speech.SpeechEnv :=
  { gtts_save := fun _ _ => none, google_cloud_tts := fun _ _ _ => none,
    google_api_key := none, google_tts_enhanced := fun _ _ _ => none,
    error_file_exists := false, gtts_save_static_ok := false }

/-- C3 counterexample: when every provider fails and the static fallback
file neither exists nor can be created, `text_to_speech` on empty input
returns `None` (speech_service.py line 310), contradicting "the caller
always receives a usable path, never null". -/
theorem claim_c3_counterexample :
    Speech.text_to_speech allFailSpeechEnv "" "en" none = none := rfl

/-- Any cascade state whose static fallback is available (the file exists,
or synthesizing it succeeds) yields a non-null result. -/
theorem speech_isSome_of_static (env : Speech.SpeechEnv)
    (text language : String) (voice : Option String)
    (hs : env.error_file_exists = true ∨ env.gtts_save_static_ok = true) :
    (Speech.text_to_speech env text language voice).isSome = true := by
  have hrest : ∀ t : String,
      (Speech.ttsRestAndStatic env language voice t).isSome = true := by
    intro t
    unfold Speech.ttsRestAndStatic
    rcases hs with h | h <;> simp [h] <;> split <;> simp
  have hcloud : ∀ t' : String,
      (match env.google_cloud_tts t' language voice with
        | some p => if p = "" then Speech.ttsRestAndStatic env language voice t' else some p
        | none => Speech.ttsRestAndStatic env language voice t').isSome = true := by
    intro t'
    rcases hc : env.google_cloud_tts t' language voice with _ | p <;> simp [hc, hrest]
    split <;> simp [hrest]
  have hcasc : ∀ t : String, (Speech.ttsCascade env language voice t).isSome = true := by
    intro t
    unfold Speech.ttsCascade
    rcases hg : Speech.text_to_speech_gtts env t language with e | p <;> simp [hg]
    · exact hcloud t
    · split
      all_goals first
        | exact hcloud t
        | simp
  unfold Speech.text_to_speech
  exact hcasc _

/-- C3 (amended): empty or whitespace-only input is replaced by the fixed
apology message before synthesis (the result equals the result for the
apology text), and the result is non-null whenever the static fallback file
exists or can be created; only when all providers fail and the static
fallback can neither be found nor created does the function return `None`
(refuted as stated by `claim_c3_counterexample`). -/
theorem claim_c3_empty_input_and_fallback (env : Speech.SpeechEnv)
    (t lang : String) (voice : Option String)
    (ht : t = "" ∨ t.trim = "")
    (hs : env.error_file_exists = true ∨ env.gtts_save_static_ok = true) :
    Speech.text_to_speech env t lang voice
      = Speech.text_to_speech env
          "Lo siento, hubo un problema al generar una respuesta." lang voice
  ∧ (Speech.text_to_speech env t lang voice).isSome = true := by
  have hcond : (t = "" || t.trim = "") = true := by
    rcases ht with h | h <;> simp [h]
  constructor
  · unfold Speech.text_to_speech
    rw [hcond]
    norm_num
  · exact speech_isSome_of_static env t lang voice hs

/-- Speech environment in which every provider fails but the static fallback file exists. -/
def staticOnlySpeechEnv : Speech.SpeechEnv :=
  { allFailSpeechEnv with error_file_exists := true }

/-- C3 witness: a whitespace-only input in an environment whose static
fallback file exists satisfies both hypotheses, the result equals the
apology-message result, and it is non-null. -/
theorem claim_c3_witness :
    ("" = "" ∨ "".trim = "")
  ∧ (staticOnlySpeechEnv.error_file_exists = true
      ∨ staticOnlySpeechEnv.gtts_save_static_ok = true)
  ∧ (Speech.text_to_speech staticOnlySpeechEnv "" "en" none
      = Speech.text_to_speech staticOnlySpeechEnv
          "Lo siento, hubo un problema al generar una respuesta." "en" none
     ∧ (Speech.text_to_speech staticOnlySpeechEnv "" "en" none).isSome = true) :=
  ⟨Or.inl rfl, Or.inl rfl,
   claim_c3_empty_input_and_fallback staticOnlySpeechEnv "" "en" none
     (Or.inl rfl) (Or.inl rfl)⟩

/-- The click action used in the claim C2 scenario. -/
def c2Action : Browser.Action := { type := some "click", x := some 100, y := some 100 }

/-- Navigation environment of the C2 scenario: the model always requests the
same single `computer_call` action, screenshots always succeed, and
`execute_action` always returns `False` (the driver state counts the
executed actions). -/
def c2Env : Browser.NavEnv Nat Unit :=
  { ops := { is_running := fun _ => true, start := fun s => (true, s),
             take_screenshot := fun s => (some "img-base64", s),
             execute_action := fun s _ => (false, s + 1),
             screenshot_path := fun _ => some "shot.png",
             cleanup := fun s => s },
    playwright_available := false,
    new_virtual_browser := 0, new_mock_browser := 0,
    client := { create := fun c _ =>
        Except.ok ({ output := [Browser.OutputItem.computer_call "call_1" c2Action] }, c) } }

/-- C2 evaluated on the code: when `execute_action` returns `False`, the
source's `break` only leaves the inner `for` loop while `has_action` is
already `True`, so the `while` loop re-runs the same response and re-executes
the same failed action on every following round: the loop runs all 15 rounds
and the action is executed 15 times, contradicting the claim that the loop
terminates at the failing round with no further action execution. -/
theorem claim_c2_exec_failure_does_not_stop_loop :
    (Browser.process_autonomous_navigation c2Env "tarea" (some 0) ()).final_round = 15
  ∧ (Browser.process_autonomous_navigation c2Env "tarea" (some 0) ()).exec_trace.length = 15
  ∧ (Browser.process_autonomous_navigation c2Env "tarea" (some 0) ()).exec_trace
      = List.replicate 15 c2Action := by
  refine ⟨?_, ?_, ?_⟩ <;> rfl

/-- C7: on every exit of the main processing, `cleanup` is invoked exactly
when the loop itself created the driver (`created_browser`), and a
caller-supplied running browser is never owned by the loop — so it is never
torn down, while a loop-created driver is released on normal return and on
exception alike (the `finally` clause covers both). -/
theorem claim_c7_cleanup_iff_owned {σ κ : Type} (env : Browser.NavEnv σ κ)
    (instructions : String) (browser? : Option σ) (c : κ) :
    (Browser.process_autonomous_navigation env instructions browser? c).cleanup_invoked
      = (Browser.process_autonomous_navigation env instructions browser? c).created_browser
  ∧ (∀ b, browser? = some b → env.ops.is_running b = true →
      (Browser.process_autonomous_navigation env instructions browser? c).created_browser
        = false) := by
  constructor
  · unfold Browser.process_autonomous_navigation
    rcases ha : Browser.acquireBrowser env browser? with msg | ⟨created, b⟩
    · simp
    · rcases hr : Browser.runNavigation env instructions b c with ⟨res, b', round, trace⟩
      rcases res with e | ⟨summary, path⟩ <;> cases created <;> simp [hr]
  · intro b hb hrun
    subst hb
    unfold Browser.process_autonomous_navigation Browser.acquireBrowser
    rcases hr : Browser.runNavigation env instructions b c with ⟨res, b', round, trace⟩
    rcases res with e | ⟨summary, path⟩ <;> simp [hrun, hr]

/-- C7 witness: for a caller-supplied running browser (state `0` of the
`c2Env` driver, whose `is_running` is always `true`), the loop does not take
ownership and never invokes `cleanup`. -/
theorem claim_c7_witness :
    c2Env.ops.is_running 0 = true
  ∧ (Browser.process_autonomous_navigation c2Env "tarea" (some 0) ()).created_browser = false
  ∧ (Browser.process_autonomous_navigation c2Env "tarea" (some 0) ()).cleanup_invoked
      = (Browser.process_autonomous_navigation c2Env "tarea" (some 0) ()).created_browser :=
  ⟨rfl,
   (claim_c7_cleanup_iff_owned c2Env "tarea" (some 0) ()).2 0 rfl rfl,
   (claim_c7_cleanup_iff_owned c2Env "tarea" (some 0) ()).1⟩

/-- C5: starting from a state with no persisted vector store (and a writable
id file), two sequential successful uploads create exactly one vector store:
the first call creates and persists an id `v1`, the second reuses it, and the
persisted file and the creation-call counter are unchanged by the second
upload. -/
theorem claim_c5_single_vector_store {χ : Type} (C : Tools.VSClient χ)
    (w0 : Tools.TWorld χ) (p1 p2 f1 v1 b1 f2 b2 : String) (c1 c2 c3 c4 c5 : χ)
    (hempty : pyFalsyOpt (Tools.get_stored_vector_store_id w0.fs.file) = true)
    (hwrite : w0.fs.writeOk = true)
    (hv1 : v1 ≠ "")
    (h1 : C.files_create w0.client p1 = Except.ok (f1, c1))
    (h2 : C.vector_stores_create c1 = Except.ok (v1, c2))
    (h3 : C.file_batches_create c2 v1 [f1] = Except.ok (b1, c3))
    (h4 : C.files_create c3 p2 = Except.ok (f2, c4))
    (h5 : C.file_batches_create c4 v1 [f2] = Except.ok (b2, c5)) :
    (Tools.upload_file_to_vector_store C w0 p1).1 = Except.ok (f1, v1)
  ∧ (Tools.upload_file_to_vector_store C
       (Tools.upload_file_to_vector_store C w0 p1).2 p2).1 = Except.ok (f2, v1)
  ∧ (Tools.upload_file_to_vector_store C w0 p1).2.fs.file
      = Tools.VSFile.stored [("vector_store_id", v1)]
  ∧ (Tools.upload_file_to_vector_store C
       (Tools.upload_file_to_vector_store C w0 p1).2 p2).2.fs.file
      = (Tools.upload_file_to_vector_store C w0 p1).2.fs.file
  ∧ (Tools.upload_file_to_vector_store C w0 p1).2.vsCreateCalls
      = w0.vsCreateCalls + 1
  ∧ (Tools.upload_file_to_vector_store C
       (Tools.upload_file_to_vector_store C w0 p1).2 p2).2.vsCreateCalls
      = (Tools.upload_file_to_vector_store C w0 p1).2.vsCreateCalls := by
  have step1 : Tools.upload_file_to_vector_store C w0 p1
      = (Except.ok (f1, v1),
         { client := c3, fs := { file := Tools.VSFile.stored [("vector_store_id", v1)],
                                 writeOk := w0.fs.writeOk },
           vsCreateCalls := w0.vsCreateCalls + 1 }) := by
    unfold Tools.upload_file_to_vector_store Tools.addFileToStore
    rw [h1]
    simp only [hempty, if_true, h2, Tools.save_vector_store_id, hwrite, if_pos, h3]
  have step2 : Tools.upload_file_to_vector_store C
      (Tools.upload_file_to_vector_store C w0 p1).2 p2
      = (Except.ok (f2, v1),
         { client := c5, fs := { file := Tools.VSFile.stored [("vector_store_id", v1)],
                                 writeOk := w0.fs.writeOk },
           vsCreateCalls := w0.vsCreateCalls + 1 }) := by
    rw [step1]
    unfold Tools.upload_file_to_vector_store Tools.addFileToStore
    rw [h4]
    simp only [Tools.get_stored_vector_store_id, List.find?, pyFalsyOpt]
    simp [hv1, h5]
  rw [step2, step1]
  simp

/-- A deterministic stateless client fixture for the C5 scenario. -/
def c5Client : Tools.VSClient Unit :=
  { files_create := fun _ p => Except.ok (p ++ ".id", ()),
    vector_stores_create := fun _ => Except.ok ("vs-1", ()),
    file_batches_create := fun _ _ _ => Except.ok ("batch-1", ()),
    file_batches_list := fun _ _ => Except.ok ([], ()),
    files_retrieve := fun _ _ => Except.error "unused" }

/-- Initial world of the C5 scenario: no persisted vector store, writable
id file, creation counter zero. -/
def c5World : Tools.TWorld Unit :=
  { client := (), fs := { file := Tools.VSFile.missing, writeOk := true },
    vsCreateCalls := 0 }

/-- C5 witness: two concrete sequential uploads from the empty persisted
state create one store `vs-1`, persist it, and leave the persisted file and
the creation counter unchanged across the second upload. -/
theorem claim_c5_witness :
    pyFalsyOpt (Tools.get_stored_vector_store_id c5World.fs.file) = true
  ∧ c5World.fs.writeOk = true
  ∧ ("vs-1" : String) ≠ ""
  ∧ ((Tools.upload_file_to_vector_store c5Client c5World "a.txt").1
        = Except.ok ("a.txt.id", "vs-1")
     ∧ (Tools.upload_file_to_vector_store c5Client
          (Tools.upload_file_to_vector_store c5Client c5World "a.txt").2 "b.txt").1
        = Except.ok ("b.txt.id", "vs-1")
     ∧ (Tools.upload_file_to_vector_store c5Client c5World "a.txt").2.fs.file
        = Tools.VSFile.stored [("vector_store_id", "vs-1")]
     ∧ (Tools.upload_file_to_vector_store c5Client
          (Tools.upload_file_to_vector_store c5Client c5World "a.txt").2 "b.txt").2.fs.file
        = (Tools.upload_file_to_vector_store c5Client c5World "a.txt").2.fs.file
     ∧ (Tools.upload_file_to_vector_store c5Client c5World "a.txt").2.vsCreateCalls
        = c5World.vsCreateCalls + 1
     ∧ (Tools.upload_file_to_vector_store c5Client
          (Tools.upload_file_to_vector_store c5Client c5World "a.txt").2 "b.txt").2.vsCreateCalls
        = (Tools.upload_file_to_vector_store c5Client c5World "a.txt").2.vsCreateCalls) :=
  ⟨rfl, rfl, by decide,
   claim_c5_single_vector_store c5Client c5World "a.txt" "b.txt" "a.txt.id" "vs-1"
     "batch-1" "b.txt.id" "batch-1" () () () () ()
     rfl rfl (by decide) rfl rfl rfl rfl rfl⟩

/-- Every record collected from one batch carries that batch's id and one of
its file ids. -/
theorem collectBatchFiles_mem {χ : Type} (C : Tools.VSClient χ) (batch_id : String) :
    ∀ (fids : List String) (c : χ) (r : Tools.FileRecord),
      r ∈ (Tools.collectBatchFiles C batch_id fids c).1 →
      r.batch_id = batch_id ∧ r.file_id ∈ fids := by
  intro fids
  induction fids with
  | nil => intro c r h; simp [Tools.collectBatchFiles] at h
  | cons fid rest ih =>
    intro c r h
    unfold Tools.collectBatchFiles at h
    rcases hf : C.files_retrieve c fid with e | ⟨info, c'⟩
    · rw [hf] at h
      rcases ih c r h with ⟨h1, h2⟩
      exact ⟨h1, List.mem_cons_of_mem _ h2⟩
    · rw [hf] at h
      simp only [List.mem_cons] at h
      rcases h with h | h
      · subst h; exact ⟨rfl, List.mem_cons_self _ _⟩
      · rcases ih _ r h with ⟨h1, h2⟩
        exact ⟨h1, List.mem_cons_of_mem _ h2⟩

/-- Every record collected over a batch list comes from a batch of that list
whose status is `"completed"`. -/
theorem collectBatches_mem {χ : Type} (C : Tools.VSClient χ) :
    ∀ (bs : List Tools.Batch) (c : χ) (r : Tools.FileRecord),
      r ∈ (Tools.collectBatches C bs c).1 →
      ∃ b ∈ bs, b.status = "completed" ∧ r.batch_id = b.id
        ∧ r.file_id ∈ b.file_ids.getD [] := by
  intro bs
  induction bs with
  | nil => intro c r h; simp [Tools.collectBatches] at h
  | cons b rest ih =>
    intro c r h
    unfold Tools.collectBatches at h
    by_cases hb : b.status = "completed"
    · rw [if_pos hb] at h
      simp only [List.mem_append] at h
      rcases h with h | h
      · rcases collectBatchFiles_mem C b.id (b.file_ids.getD []) c r h with ⟨h1, h2⟩
        exact ⟨b, List.mem_cons_self _ _, hb, h1, h2⟩
      · rcases ih _ r h with ⟨b', hb', hs, h1, h2⟩
        exact ⟨b', List.mem_cons_of_mem _ hb', hs, h1, h2⟩
    · rw [if_neg hb] at h
      rcases ih _ r h with ⟨b', hb', hs, h1, h2⟩
      exact ⟨b', List.mem_cons_of_mem _ hb', hs, h1, h2⟩

/-- C6: when the external listing returns `batches`, every entry of
`get_available_files` belongs to a batch of `batches` whose status equals
`"completed"` — files of pending, in-progress or failed batches never
appear. -/
theorem claim_c6_only_completed_batches {χ : Type} (C : Tools.VSClient χ) (c : χ)
    (fsfile : Tools.VSFile) (vector_store_id : Option String)
    (batches : List Tools.Batch) (c' : χ)
    (hlist : ∀ (s : χ) (i : String), C.file_batches_list s i = Except.ok (batches, c')) :
    ∀ r ∈ Tools.get_available_files C c fsfile vector_store_id,
      ∃ b ∈ batches, b.status = "completed" ∧ r.batch_id = b.id
        ∧ r.file_id ∈ b.file_ids.getD [] := by
  intro r hr
  unfold Tools.get_available_files at hr
  split at hr
  · simp only at hr
    split at hr
    · simp at hr
    · rw [hlist] at hr
      exact collectBatches_mem C batches c' r hr
  · simp only at hr
    split at hr
    · simp at hr
    · rw [hlist] at hr
      exact collectBatches_mem C batches c' r hr

/-- Batch listing fixture for the C6 witness: one completed and one failed
batch. -/
def c6Batches : List Tools.Batch :=
  [{ id := "b1", status := "completed", file_ids := some ["f1"] },
   { id := "b2", status := "failed", file_ids := some ["f2"] }]

/-- Client fixture for the C6 witness. -/
def c6Client : Tools.VSClient Unit :=
  { files_create := fun _ _ => Except.error "unused",
    vector_stores_create := fun _ => Except.error "unused",
    file_batches_create := fun _ _ _ => Except.error "unused",
    file_batches_list := fun _ _ => Except.ok (c6Batches, ()),
    files_retrieve := fun _ fid =>
      Except.ok ({ filename := fid ++ ".pdf", bytes := 10, created_at := 20 }, ()) }

/-- C6 witness: with one completed and one failed batch, the file of the
completed batch is listed and is certified to come from a completed batch. -/
theorem claim_c6_witness :
    (∀ (s : Unit) (i : String), c6Client.file_batches_list s i = Except.ok (c6Batches, ()))
  ∧ (⟨"f1", "f1.pdf", 10, 20, "b1"⟩ : Tools.FileRecord)
      ∈ Tools.get_available_files c6Client ()
          (Tools.VSFile.stored [("vector_store_id", "vs-1")]) none
  ∧ ∃ b ∈ c6Batches, b.status = "completed"
      ∧ (⟨"f1", "f1.pdf", 10, 20, "b1"⟩ : Tools.FileRecord).batch_id = b.id
      ∧ (⟨"f1", "f1.pdf", 10, 20, "b1"⟩ : Tools.FileRecord).file_id ∈ b.file_ids.getD [] :=
  ⟨fun _ _ => rfl, by decide,
   claim_c6_only_completed_batches c6Client ()
     (Tools.VSFile.stored [("vector_store_id", "vs-1")]) none c6Batches ()
     (fun _ _ => rfl) ⟨"f1", "f1.pdf", 10, 20, "b1"⟩ (by decide)⟩

/-- C8: the function-calling fallback strategy of
`process_query_with_web_search` is used exactly when the primary
search-model call raises (never when transcription already failed, never
when the primary call returns), and whenever a transcript is obtained both
strategies return it unchanged in the `(transcript, response_text)` pair. -/
theorem claim_c8_web_search_fallback (env : Chat.WebSearchEnv)
    (input_data : String) (is_text : Bool) :
    ((Chat.process_query_with_web_search env input_data is_text).usedFallback = true
      ↔ ∃ t, (if is_text then Except.ok input_data else env.transcribe_audio input_data)
              = Except.ok t
          ∧ ∃ e, env.search_model ("Busca información actualizada sobre: " ++ t)
              = Except.error e)
  ∧ (∀ t, (if is_text then Except.ok input_data else env.transcribe_audio input_data)
        = Except.ok t →
      (Chat.process_query_with_web_search env input_data is_text).transcript = t) := by
  unfold Chat.process_query_with_web_search
  rcases htr : (if is_text then Except.ok input_data else env.transcribe_audio input_data)
    with e0 | t0
  · simp [htr]
  · simp only [htr]
    rcases hs : env.search_model ("Busca información actualizada sobre: " ++ t0)
      with e1 | resp
    · rcases hf : env.fallback_model t0 with e2 | resp2
      · simp [hs, hf]
      · rcases resp2 with ⟨choices⟩
        rcases choices with _ | ⟨msg, rest⟩
        · simp [hs, hf]
        · simp only [hs, hf]
          rcases hc : msg.tool_calls with _ | tcs
          · split <;> simp_all
          · split <;> simp_all
    · simp only [hs]
      split <;> simp_all

/-- Web-search environment fixture for the C8 witness: the primary search
model raises, the fallback returns content. -/
def c8Env : Chat.WebSearchEnv :=
  { transcribe_audio := fun _ => Except.error "unused",
    search_model := fun _ => Except.error "search down",
    fallback_model := fun _ =>
      Except.ok { choices := [{ content := some "respuesta", tool_calls := none }] } }

/-- C8 witness: a text query whose primary search call raises triggers the
fallback, and the transcript is preserved. -/
theorem claim_c8_witness :
    (if (true : Bool) then Except.ok "consulta"
      else c8Env.transcribe_audio "consulta") = Except.ok "consulta"
  ∧ (Chat.process_query_with_web_search c8Env "consulta" true).usedFallback = true
  ∧ (Chat.process_query_with_web_search c8Env "consulta" true).transcript = "consulta" :=
  ⟨rfl,
   (claim_c8_web_search_fallback c8Env "consulta" true).1.mpr
     ⟨"consulta", rfl, "search down", rfl⟩,
   (claim_c8_web_search_fallback c8Env "consulta" true).2 "consulta" rfl⟩

/-- One round body adds at most one executed action to the ghost trace. -/
theorem processItems_trace_bound {σ κ : Type} (env : Browser.NavEnv σ κ)
    (instructions : String) (round : Nat) :
    ∀ (items : List Browser.OutputItem) (b : σ) (c : κ) (acc : List String)
      (tr : List Browser.Action),
      (match Browser.processItems env instructions round items b c acc tr with
       | .no_action _ => True
       | .exec_failed _ _ tr' => tr'.length ≤ tr.length + 1
       | .shot_failed _ _ tr' => tr'.length ≤ tr.length + 1
       | .advanced _ _ _ _ tr' => tr'.length ≤ tr.length + 1
       | .raised _ _ _ _ tr' => tr'.length ≤ tr.length + 1) := by
  intro items
  induction items with
  | nil => intro b c acc tr; simp only [Browser.processItems]
  | cons item rest ih =>
    intro b c acc tr
    cases item with
    | reasoning parts => simp only [Browser.processItems]; exact ih b c _ tr
    | output_text t => simp only [Browser.processItems]; exact ih b c acc tr
    | otherItem => simp only [Browser.processItems]; exact ih b c acc tr
    | computer_call cid a =>
      simp only [Browser.processItems]
      by_cases he : (env.ops.execute_action b a).1 = false
      · simp [he]
      · rw [if_neg he]
        by_cases hsh :
            pyFalsyOpt (env.ops.take_screenshot (env.ops.execute_action b a).2).1 = true
        · simp [hsh]
        · rw [if_neg hsh]
          rcases hc : env.client.create c
              { text := "Continúa con la tarea: " ++ instructions, image := none,
                call_output := some (cid,
                  (env.ops.take_screenshot (env.ops.execute_action b a).2).1.getD "") }
            with e | ⟨resp, c'⟩ <;> simp [hc]

/-- The round loop runs at most `fuel` further rounds and executes at most
`fuel` further actions. -/
theorem navLoop_bounds {σ κ : Type} (env : Browser.NavEnv σ κ) (instructions : String) :
    ∀ (fuel round : Nat) (b : σ) (c : κ) (resp : Browser.ModelResponse)
      (acc : List String) (tr : List Browser.Action),
      (Browser.navLoop env instructions fuel round b c resp acc tr).round ≤ round + fuel
    ∧ (Browser.navLoop env instructions fuel round b c resp acc tr).trace.length
        ≤ tr.length + fuel := by
  intro fuel
  induction fuel with
  | zero =>
    intro round b c resp acc tr
    simp [Browser.navLoop]
  | succ n ih =>
    intro round b c resp acc tr
    have hp := processItems_trace_bound env instructions (round + 1) resp.output b c acc tr
    unfold Browser.navLoop
    rcases hpi : Browser.processItems env instructions (round + 1) resp.output b c acc tr
      with acc' | ⟨acc', b', tr'⟩ | ⟨acc', b', tr'⟩ | ⟨acc', b', c', resp', tr'⟩
        | ⟨acc', e, b', c', tr'⟩
    all_goals rw [hpi] at hp
    all_goals simp only [hpi]
    · exact ⟨by omega, by omega⟩
    · rcases ih (round + 1) b' c resp acc' tr' with ⟨i1, i2⟩
      constructor
      · exact le_trans i1 (by omega)
      · exact le_trans i2 (by omega)
    · rcases ih (round + 1) b' c resp acc' tr' with ⟨i1, i2⟩
      constructor
      · exact le_trans i1 (by omega)
      · exact le_trans i2 (by omega)
    · rcases ih (round + 1) b' c' resp' acc' tr' with ⟨i1, i2⟩
      constructor
      · exact le_trans i1 (by omega)
      · exact le_trans i2 (by omega)
    · exact ⟨by omega, by omega⟩

/-- Under the always-acting hypotheses, every round body finds the
`computer_call`, executes it successfully, screenshots successfully, and
advances with a new response that again contains a `computer_call`. -/
theorem processItems_always_advances {σ κ : Type} (env : Browser.NavEnv σ κ)
    (instructions : String) (round : Nat)
    (hcl : ∀ (k : κ) (inp : Browser.CreateInput), ∃ resp k',
        env.client.create k inp = Except.ok (resp, k')
        ∧ Browser.hasComputerCall resp.output = true)
    (hex : ∀ (s : σ) (a : Browser.Action), (env.ops.execute_action s a).1 = true)
    (hsh : ∀ s : σ, pyFalsyOpt (env.ops.take_screenshot s).1 = false) :
    ∀ (items : List Browser.OutputItem) (b : σ) (c : κ) (acc : List String)
      (tr : List Browser.Action), Browser.hasComputerCall items = true →
      ∃ acc' b' c' resp' tr',
        Browser.processItems env instructions round items b c acc tr
          = Browser.RoundStep.advanced acc' b' c' resp' tr'
        ∧ Browser.hasComputerCall resp'.output = true := by
  intro items
  induction items with
  | nil => intro b c acc tr h; simp [Browser.hasComputerCall] at h
  | cons item rest ih =>
    intro b c acc tr h
    cases item with
    | reasoning parts =>
      simp only [Browser.hasComputerCall] at h
      simp only [Browser.processItems]
      exact ih b c _ tr h
    | output_text t =>
      simp only [Browser.hasComputerCall] at h
      simp only [Browser.processItems]
      exact ih b c acc tr h
    | otherItem =>
      simp only [Browser.hasComputerCall] at h
      simp only [Browser.processItems]
      exact ih b c acc tr h
    | computer_call cid a =>
      simp only [Browser.processItems, hex b a, hsh]
      obtain ⟨resp', k', hcr, hcall⟩ := hcl c
        { text := "Continúa con la tarea: " ++ instructions, image := none,
          call_output := some (cid,
            (env.ops.take_screenshot (env.ops.execute_action b a).2).1.getD "") }
      rw [hcr]
      exact ⟨acc, (env.ops.take_screenshot (env.ops.execute_action b a).2).2, k', resp',
        tr ++ [a], rfl, hcall⟩

/-- Under the always-acting hypotheses the round loop consumes all its fuel:
it ends exactly `fuel` rounds later, without raising. -/
theorem navLoop_always_acting {σ κ : Type} (env : Browser.NavEnv σ κ)
    (instructions : String)
    (hcl : ∀ (k : κ) (inp : Browser.CreateInput), ∃ resp k',
        env.client.create k inp = Except.ok (resp, k')
        ∧ Browser.hasComputerCall resp.output = true)
    (hex : ∀ (s : σ) (a : Browser.Action), (env.ops.execute_action s a).1 = true)
    (hsh : ∀ s : σ, pyFalsyOpt (env.ops.take_screenshot s).1 = false) :
    ∀ (fuel round : Nat) (b : σ) (c : κ) (resp : Browser.ModelResponse)
      (acc : List String) (tr : List Browser.Action),
      Browser.hasComputerCall resp.output = true →
      (Browser.navLoop env instructions fuel round b c resp acc tr).round = round + fuel
    ∧ (Browser.navLoop env instructions fuel round b c resp acc tr).err = none := by
  intro fuel
  induction fuel with
  | zero =>
    intro round b c resp acc tr _h
    simp [Browser.navLoop]
  | succ n ih =>
    intro round b c resp acc tr h
    obtain ⟨acc', b', c', resp', tr', hpi, hcall'⟩ :=
      processItems_always_advances env instructions (round + 1) hcl hex hsh
        resp.output b c acc tr h
    unfold Browser.navLoop
    simp only [hpi]
    rcases ih (round + 1) b' c' resp' acc' tr' hcall' with ⟨i1, i2⟩
    refine ⟨?_, i2⟩
    rw [i1]
    omega

/-- The `try`-body never reports more than `max_rounds` rounds or actions. -/
theorem runNavigation_bounds {σ κ : Type} (env : Browser.NavEnv σ κ)
    (instructions : String) (b : σ) (c : κ) :
    (Browser.runNavigation env instructions b c).2.2.1 ≤ Browser.max_rounds
  ∧ (Browser.runNavigation env instructions b c).2.2.2.length ≤ Browser.max_rounds := by
  constructor <;>
  · simp only [Browser.runNavigation]
    split
    · simp
    · rcases hcr : env.client.create c
          { text := instructions, image := some ((env.ops.take_screenshot b).1.getD ""),
            call_output := none }
        with e | ⟨resp, c1⟩
      · simp [hcr]
      · simp only [hcr]
        have hb := navLoop_bounds env instructions Browser.max_rounds 0
          (env.ops.take_screenshot b).2 c1 resp [] []
        split <;>
          first
            | simpa using hb.1
            | simpa using hb.2

/-- Under the always-acting hypotheses the `try`-body ends at exactly
`max_rounds` rounds and appends the limit note to the summary it returns. -/
theorem runNavigation_always_acting {σ κ : Type} (env : Browser.NavEnv σ κ)
    (instructions : String) (b : σ) (c : κ)
    (hAA : Browser.alwaysActing env) :
    (Browser.runNavigation env instructions b c).2.2.1 = Browser.max_rounds
  ∧ ∃ s path, (Browser.runNavigation env instructions b c).1
      = Except.ok (s ++ Browser.limitNote, path) := by
  obtain ⟨hcl, hex, hsh⟩ := hAA
  obtain ⟨resp, c1, hcr, hcall⟩ := hcl c
    { text := instructions, image := some ((env.ops.take_screenshot b).1.getD ""),
      call_output := none }
  have hnav := navLoop_always_acting env instructions hcl hex hsh Browser.max_rounds 0
    (env.ops.take_screenshot b).2 c1 resp [] [] hcall
  constructor
  · simp [Browser.runNavigation, hsh b, hcr, hnav.1, hnav.2]
  · refine ⟨String.intercalate "\n"
      (Browser.navLoop env instructions Browser.max_rounds 0
        (env.ops.take_screenshot b).2 c1 resp [] []).acc,
      env.ops.screenshot_path
        (Browser.navLoop env instructions Browser.max_rounds 0
          (env.ops.take_screenshot b).2 c1 resp [] []).b, ?_⟩
    simp [Browser.runNavigation, hsh b, hcr, hnav.1, hnav.2]

/-- C1: `process_autonomous_navigation` executes at most `max_rounds = 15`
rounds and at most 15 actions regardless of model behavior; and for a model
whose every response contains a `computer_call` (with actions executing and
screenshots succeeding), run on a caller-supplied running browser, the loop
ends after exactly 15 rounds with the limit note appended to the returned
summary. -/
theorem claim_c1_round_limit {σ κ : Type} (env : Browser.NavEnv σ κ)
    (instructions : String) (browser? : Option σ) (c : κ) :
    ((Browser.process_autonomous_navigation env instructions browser? c).final_round
        ≤ Browser.max_rounds
     ∧ (Browser.process_autonomous_navigation env instructions browser? c).exec_trace.length
        ≤ Browser.max_rounds)
  ∧ (Browser.alwaysActing env →
      ∀ b0, browser? = some b0 → env.ops.is_running b0 = true →
        (Browser.process_autonomous_navigation env instructions browser? c).final_round
          = Browser.max_rounds
      ∧ ∃ s, (Browser.process_autonomous_navigation env instructions browser? c).summary
          = s ++ Browser.limitNote) := by
  constructor
  · unfold Browser.process_autonomous_navigation
    rcases ha : Browser.acquireBrowser env browser? with msg | ⟨created, b⟩
    · simp [Browser.max_rounds]
    · have hrb := runNavigation_bounds env instructions b c
      rcases hr : Browser.runNavigation env instructions b c with ⟨res, b', round, trace⟩
      rw [hr] at hrb
      simp only at hrb
      rcases res with e | ⟨summary, path⟩ <;> cases created <;> simp [hr] <;>
        exact ⟨hrb.1, hrb.2⟩
  · intro hAA b0 hb hrun
    subst hb
    have hpr := runNavigation_always_acting env instructions b0 c hAA
    unfold Browser.process_autonomous_navigation Browser.acquireBrowser
    rcases hr : Browser.runNavigation env instructions b0 c with ⟨res, b', round, trace⟩
    rw [hr] at hpr
    simp only at hpr
    obtain ⟨h15, s, path, hres⟩ := hpr
    subst h15
    subst hres
    simp [hrun, hr]
    exact ⟨s, rfl⟩

/-- Always-acting navigation environment for the C1 witness: the model
always requests the same `computer_call`, actions execute, screenshots
succeed. -/
def c1Env : Browser.NavEnv Nat Unit :=
  { ops := { is_running := fun _ => true, start := fun s => (true, s),
             take_screenshot := fun s => (some "img-base64", s),
             execute_action := fun s _ => (true, s + 1),
             screenshot_path := fun _ => some "shot.png",
             cleanup := fun s => s },
    playwright_available := false,
    new_virtual_browser := 0, new_mock_browser := 0,
    client := { create := fun c _ =>
        Except.ok ({ output := [Browser.OutputItem.computer_call "call_1" c2Action] }, c) } }

/-- C1 witness: the concrete always-acting environment satisfies the
hypotheses, and on a caller-supplied running browser the loop ends at
exactly 15 rounds with the limit note appended. -/
theorem claim_c1_witness :
    Browser.alwaysActing c1Env
  ∧ (Browser.process_autonomous_navigation c1Env "tarea" (some 0) ()).final_round
      = Browser.max_rounds
  ∧ ∃ s, (Browser.process_autonomous_navigation c1Env "tarea" (some 0) ()).summary
      = s ++ Browser.limitNote := by
  have hAA : Browser.alwaysActing c1Env :=
    ⟨fun k _inp =>
      ⟨{ output := [Browser.OutputItem.computer_call "call_1" c2Action] }, k, rfl, rfl⟩,
     fun _s _a => rfl, fun _s => rfl⟩
  obtain ⟨h1, h2⟩ := (claim_c1_round_limit c1Env "tarea" (some 0) ()).2 hAA 0 rfl rfl
  exact ⟨hAA, h1, h2⟩
